/-
Verification of the c4web repository's order / payment / transaction
reconciliation core against its natural-language specification.

The Python sources under app/ are shallowly embedded:
  * Decimal values are modelled as exact rationals (ℚ); Python's Decimal
    arithmetic on such values is exact, matching rational arithmetic.
  * datetimes are modelled as an abstract Nat clock; `datetime.utcnow()`
    becomes an explicit `now : Nat` parameter.
  * the SQLAlchemy-backed tables become lists of rows inside a `DB`
    structure; a commit either applies all staged changes or, on a
    uniqueness violation, leaves the state unchanged and surfaces an
    `integrityError` (SQLite enforces the UNIQUE constraints; the NOT
    ENFORCED foreign keys of the default SQLite setup are modelled as
    unenforced).
  * Python exceptions become `Except PyErr`.
  * `hashlib.sha512` / `hmac` are embedded as a full executable SHA-512 /
    HMAC implementation (FIPS 180-4: round constants are derived from the
    fractional parts of cube roots of the first 80 primes, the initial
    hash from square roots of the first 8 primes).
-/

import Mathlib

set_option maxRecDepth 10000

/-! ### Python value helpers

Truthiness and `or`-chains over optional strings, as used by
`payload.get(k) or ...` in app/data.py.  `none` stands for a missing key
(or a JSON null); `some ""` is a present but falsy empty string. -/

/-- Python truthiness of an optional string: missing keys and empty
strings are falsy. -/
def isTruthyStr : Option String → Bool
  | some s => s != ""
  | none => false

/-- Python `v or d` for an optional string `v` and a (truthy) string
default `d`. -/
def pyOrStr (v : Option String) (d : String) : String :=
  match v with
  | some s => if s = "" then d else s
  | none => d

/-- ASCII lower-casing of one character. -/
def lowerChar (c : Char) : Char :=
  if 'A' ≤ c && c ≤ 'Z' then Char.ofNat (c.toNat + 32) else c

/-- Python `str.lower()` (ASCII range; no callback or status string under
proof carries non-ASCII letters). -/
def pyLower (s : String) : String := String.mk (s.data.map lowerChar)

/-- A Python `a or b or ... or z` chain over `.get` results: the first
truthy value, and otherwise the value of the last operand (which may be
a falsy empty string or a missing-key `none`). -/
def orChain : List (Option String) → Option String
  | [] => none
  | [x] => x
  | x :: rest =>
    match x with
    | some s => if s = "" then orChain rest else some s
    | none => orChain rest

/-- The first truthy value of a `.get` chain, if any. -/
def firstTruthyStr (xs : List (Option String)) : Option String :=
  xs.findSome? fun v =>
    match v with
    | some s => if s = "" then none else some s
    | none => none

/-! ### Decimal / int parsing

`decimal.Decimal(str)` accepts an optionally signed decimal numeral with
optional fractional part and optional exponent, surrounded by optional
whitespace; anything else raises.  (Special values NaN/Infinity and
digit-group underscores are not modelled; no code path under proof feeds
them.)  Python `int(str)` accepts an optionally signed run of digits
surrounded by optional whitespace. -/

/-- Numeric value of a list of decimal digit characters. -/
def digitsVal (l : List Char) : Nat :=
  l.foldl (fun a c => a * 10 + (c.toNat - 48)) 0

/-- All characters are decimal digits (and the list is nonempty). -/
def allDigits (l : List Char) : Bool :=
  !l.isEmpty && l.all (·.isDigit)

/-- Parse an unsigned decimal numeral `digits[.digits]` (at least one
digit on one side of the dot, as `Decimal` requires). -/
def parseUnsignedDec (l : List Char) : Option ℚ :=
  match l.splitOn '.' with
  | [ip] => if allDigits ip then some (digitsVal ip) else none
  | [ip, fp] =>
    if (ip.isEmpty || ip.all (·.isDigit)) && (fp.isEmpty || fp.all (·.isDigit))
        && !(ip.isEmpty && fp.isEmpty) then
      some ((digitsVal ip : ℚ) + (digitsVal fp : ℚ) / (10 : ℚ) ^ fp.length)
    else none
  | _ => none

/-- Parse an optionally signed decimal numeral. -/
def parseSignedDec (l : List Char) : Option ℚ :=
  match l with
  | '+' :: r => parseUnsignedDec r
  | '-' :: r => (parseUnsignedDec r).map (fun q => -q)
  | _ => parseUnsignedDec l

/-- Parse an optionally signed integer exponent. -/
def parseSignedExp (l : List Char) : Option ℤ :=
  match l with
  | '+' :: r => if allDigits r then some (digitsVal r : ℤ) else none
  | '-' :: r => if allDigits r then some (-(digitsVal r : ℤ)) else none
  | _ => if allDigits l then some (digitsVal l : ℤ) else none

/-- `decimal.Decimal` string parsing (whitespace-trimmed, signed mantissa,
optional `e`/`E` exponent). -/
def parseDecimal (s : String) : Option ℚ :=
  let l := s.trim.data
  match l.splitOn 'e' with
  | [m] =>
    match m.splitOn 'E' with
    | [m0] => parseSignedDec m0
    | [m0, x0] => do
      let q ← parseSignedDec m0
      let x ← parseSignedExp x0
      pure (q * (10 : ℚ) ^ x)
    | _ => none
  | [m0, x0] => do
    let q ← parseSignedDec m0
    let x ← parseSignedExp x0
    pure (q * (10 : ℚ) ^ x)
  | _ => none

/-- Python `int(str)`: optionally signed digit run with surrounding
whitespace. -/
def pyIntOfStr (s : String) : Option ℤ :=
  let l := s.trim.data
  match l with
  | '+' :: r => if allDigits r then some (digitsVal r : ℤ) else none
  | '-' :: r => if allDigits r then some (-(digitsVal r : ℤ)) else none
  | _ => if allDigits l then some (digitsVal l : ℤ) else none

/-- Truncation toward zero, the behaviour of Python `int(float)`. -/
def truncRat (q : ℚ) : ℤ := q.num / (q.den : ℤ)

/-! ### SHA-512 and HMAC (hashlib.sha512 / hmac, FIPS 180-4) -/

/-- Trial-division primality test on `Nat`. -/
def isPrimeNat (n : Nat) : Bool :=
  decide (2 ≤ n) && (List.range n).all (fun d => d < 2 || n % d != 0)

/-- The first 80 primes (2 … 409), whose cube/square roots seed the
SHA-512 constants. -/
def sha512Primes : List Nat := ((List.range 410).filter isPrimeNat).take 80

/-- Digit-by-digit integer cube root (largest `x` with `x^3 ≤ n`), with
enough fuel for all inputs used here. -/
def icbrtAux : Nat → Nat → Nat
  | 0, _ => 0
  | fuel + 1, n =>
    let r := 2 * icbrtAux fuel (n / 8)
    if (r + 1) * (r + 1) * (r + 1) ≤ n then r + 1 else r

/-- Integer cube root. -/
def icbrt (n : Nat) : Nat := icbrtAux 96 n

/-- SHA-512 round constants: the first 64 bits of the fractional parts of
the cube roots of the first 80 primes. -/
def sha512K : List Nat :=
  sha512Primes.map (fun p => icbrt (p <<< 192) - ((icbrt p) <<< 64))

/-- SHA-512 initial hash value: the first 64 bits of the fractional parts
of the square roots of the first 8 primes. -/
def sha512H0 : List Nat :=
  (sha512Primes.take 8).map (fun p => Nat.sqrt (p <<< 128) - ((Nat.sqrt p) <<< 64))

/-- Addition modulo 2^64. -/
def add64 (a b : Nat) : Nat := (a + b) % (2 ^ 64)

/-- Right rotation of a 64-bit word. -/
def rotr64 (r x : Nat) : Nat := ((x >>> r) ||| (x <<< (64 - r))) % (2 ^ 64)

/-- SHA-512 big sigma 0. -/
def bsig0 (x : Nat) : Nat := rotr64 28 x ^^^ rotr64 34 x ^^^ rotr64 39 x

/-- SHA-512 big sigma 1. -/
def bsig1 (x : Nat) : Nat := rotr64 14 x ^^^ rotr64 18 x ^^^ rotr64 41 x

/-- SHA-512 small sigma 0. -/
def ssig0 (x : Nat) : Nat := rotr64 1 x ^^^ rotr64 8 x ^^^ (x >>> 7)

/-- SHA-512 small sigma 1. -/
def ssig1 (x : Nat) : Nat := rotr64 19 x ^^^ rotr64 61 x ^^^ (x >>> 6)

/-- SHA-512 choice function. -/
def chFun (x y z : Nat) : Nat := (x &&& y) ^^^ ((x ^^^ (2 ^ 64 - 1)) &&& z)

/-- SHA-512 majority function. -/
def majFun (x y z : Nat) : Nat := (x &&& y) ^^^ (x &&& z) ^^^ (y &&& z)

/-- Big-endian value of a byte list. -/
def beWord (bs : List Nat) : Nat := bs.foldl (fun a b => a * 256 + b) 0

/-- Big-endian byte expansion of `n` over `count` bytes. -/
def natToBytesBE (count n : Nat) : List Nat :=
  (List.range count).map (fun i => (n >>> (8 * (count - 1 - i))) % 256)

/-- Split a list into chunks of `k` elements. -/
def chunksOf (k : Nat) (l : List Nat) : List (List Nat) :=
  if h : l = [] then []
  else if hk : k = 0 then []
  else (l.take k) :: chunksOf k (l.drop k)
termination_by l.length
decreasing_by
  have hl : 0 < l.length := List.length_pos.mpr h
  simp only [List.length_drop]
  omega

/-- The 16 big-endian 64-bit words of a 128-byte block. -/
def blockWords (bs : List Nat) : List Nat := (chunksOf 8 bs).map beWord

/-- The 80-entry SHA-512 message schedule of one block. -/
def msgSchedule (m : List Nat) : List Nat :=
  (List.range 80).foldl
    (fun ws t =>
      if t < 16 then ws ++ [m.getD t 0]
      else
        ws ++ [add64 (add64 (ssig1 (ws.getD (t - 2) 0)) (ws.getD (t - 7) 0))
                     (add64 (ssig0 (ws.getD (t - 15) 0)) (ws.getD (t - 16) 0))])
    []

/-- One SHA-512 round on the 8-word working state. -/
def roundStep (st : List Nat) (kw : Nat × Nat) : List Nat :=
  match st with
  | [a, b, c, d, e, f, g, h] =>
    let t1 := add64 (add64 (add64 h (bsig1 e)) (add64 (chFun e f g) kw.1)) kw.2
    let t2 := add64 (bsig0 a) (majFun a b c)
    [add64 t1 t2, a, b, c, add64 d t1, e, f, g]
  | other => other

/-- SHA-512 compression of one 128-byte block into the running hash. -/
def compressBlock (hs : List Nat) (block : List Nat) : List Nat :=
  let st := (sha512K.zip (msgSchedule (blockWords block))).foldl roundStep hs
  (hs.zip st).map (fun pq => add64 pq.1 pq.2)

/-- SHA-512 padding: 0x80, zeros to 112 mod 128, 16-byte big-endian bit
length. -/
def padMessage (msg : List Nat) : List Nat :=
  let L := msg.length
  let k := (128 + 112 - (L + 1) % 128) % 128
  msg ++ [128] ++ List.replicate k 0 ++ natToBytesBE 16 (8 * L)

/-- SHA-512 digest of a byte list. -/
def sha512Bytes (msg : List Nat) : List Nat :=
  let hs := (chunksOf 128 (padMessage msg)).foldl compressBlock sha512H0
  (hs.map (natToBytesBE 8)).flatten

/-- Lower-case hex digit. -/
def hexDigit (n : Nat) : Char :=
  if n < 10 then Char.ofNat (48 + n) else Char.ofNat (87 + n)

/-- Lower-case hex encoding of a byte list. -/
def bytesToHex (bs : List Nat) : String :=
  String.mk ((bs.map (fun b => [hexDigit (b / 16), hexDigit (b % 16)])).flatten)

/-- UTF-8 encoding of one code point. -/
def utf8Bytes (c : Char) : List Nat :=
  let n := c.toNat
  if n < 128 then [n]
  else if n < 2048 then [192 + n / 64, 128 + n % 64]
  else if n < 65536 then [224 + n / 4096, 128 + (n / 64) % 64, 128 + n % 64]
  else [240 + n / 262144, 128 + (n / 4096) % 64, 128 + (n / 64) % 64, 128 + n % 64]

/-- `str.encode("utf-8")`. -/
def strBytes (s : String) : List Nat := (s.data.map utf8Bytes).flatten

/-- `hmac.new(key, msg, hashlib.sha512).digest()` (RFC 2104, block size
128). -/
def hmacSha512 (key msg : List Nat) : List Nat :=
  let k0 := if 128 < key.length then sha512Bytes key else key
  let k1 := k0 ++ List.replicate (128 - k0.length) 0
  sha512Bytes ((k1.map (fun b => b ^^^ 92)) ++
    sha512Bytes ((k1.map (fun b => b ^^^ 54)) ++ msg))

/-- `hmac.new(key.encode(), msg.encode(), hashlib.sha512).hexdigest()`. -/
def hmacSha512Hex (key msg : String) : String :=
  bytesToHex (hmacSha512 (strBytes key) (strBytes msg))

/-! ### Customer maps

The duck-typed `customer` dictionaries.  `none` in a field stands for a
missing key (a present-but-null value behaves identically under the `or`
chains and truthiness tests that consume these maps). -/

/-- The customer dictionary fields the code probes. -/
structure CustomerMap where
  name : Option String := none
  full_name : Option String := none
  fullName : Option String := none
  email : Option String := none
  phone : Option String := none
  company : Option String := none
deriving DecidableEq

/-- Python truthiness of the customer dict (empty dict is falsy). -/
def custIsEmpty (m : CustomerMap) : Bool :=
  m.name.isNone && m.full_name.isNone && m.fullName.isNone &&
  m.email.isNone && m.phone.isNone && m.company.isNone

/-- The `customer` argument of order creation: a dict, a plain string, or
anything else (None, numbers, …). -/
inductive CustomerVal where
  | dict (m : CustomerMap)
  | str (s : String)
  | other
deriving DecidableEq

/-! ### app/payway.py — PaywayClient -/

/-- `"|".join` over a list of strings. -/
def joinPipe : List String → String
  | [] => ""
  | [s] => s
  | s :: rest => s ++ "|" ++ joinPipe rest

/-- List-of-chars version of `joinPipe`, for reasoning. -/
def joinPipeL : List (List Char) → List Char
  | [] => []
  | [s] => s
  | s :: rest => s ++ '|' :: joinPipeL rest

/-- The dataclass `PaywayClient` (configuration fields). -/
structure PaywayClient where
  merchant_id : String
  api_key : String
  public_key : String
  checkout_url : String
  return_url : String
  cancel_url : String
  timeout : Nat := 30
deriving DecidableEq

/-- `PaywayClient._validate_configuration` as a predicate: it raises
`PaywayError` exactly when this is false. -/
def validConfig (c : PaywayClient) : Bool :=
  !(c.merchant_id == "" || c.merchant_id == "YOUR_MERCHANT_ID") &&
  !(c.api_key == "" || c.api_key == "YOUR_API_KEY") &&
  c.checkout_url != "" && c.return_url != "" && c.cancel_url != ""

/-- The hosted checkout payload dictionary. -/
structure CheckoutPayload where
  merchant_id : String
  order_id : String
  amount : String
  currency : String
  items : String
  return_url : String
  cancel_url : String
  customer_name : Option String := none
  customer_email : Option String := none
  customer_phone : Option String := none
  hash : String := ""
deriving DecidableEq

/-- The `{endpoint, payload}` result of `create_checkout_payload`. -/
structure CheckoutResult where
  endpoint : String
  payload : CheckoutPayload
deriving DecidableEq

/-- The values of the `signing_fields` list, in the order the source
fixes: merchant_id, order_id, amount, currency, items, return_url,
cancel_url. -/
def signingSlots (c : PaywayClient) (order_id amount items currency : String) :
    List String :=
  [c.merchant_id, order_id, amount, currency, items, c.return_url, c.cancel_url]

/-- `PaywayClient.create_checkout_payload`. -/
def create_checkout_payload (c : PaywayClient) (order_id amount items : String)
    (customer : Option CustomerMap := none) (currency : String := "USD") :
    CheckoutResult :=
  let base : CheckoutPayload :=
    { merchant_id := c.merchant_id, order_id := order_id, amount := amount,
      currency := currency, items := items,
      return_url := c.return_url, cancel_url := c.cancel_url }
  let p :=
    match customer with
    | some m =>
      if !custIsEmpty m then
        { base with
          customer_name := if isTruthyStr m.name then m.name else none,
          customer_email := if isTruthyStr m.email then m.email else none,
          customer_phone := if isTruthyStr m.phone then m.phone else none }
      else base
    | none => base
  let signing_string :=
    joinPipe ([p.merchant_id, p.order_id, p.amount, p.currency, p.items,
               p.return_url, p.cancel_url].filter (fun v => v != ""))
  { endpoint := c.checkout_url,
    payload := { p with hash := hmacSha512Hex c.api_key signing_string } }

/-- The signing string exactly as the spec words it: the values of
merchant_id, order_id, amount, currency, items, return_url, cancel_url in
that order, joined with a single pipe, skipping empty values. -/
def specSigningString (merchant_id order_id amount currency items
    return_url cancel_url : String) : String :=
  joinPipe ([merchant_id, order_id, amount, currency, items,
             return_url, cancel_url].filter (fun v => v != ""))

/-- The hash exactly as the spec words it:
hex(HMAC-SHA512(api_key, signing string)). -/
def specHash (api_key merchant_id order_id amount currency items
    return_url cancel_url : String) : String :=
  hmacSha512Hex api_key (specSigningString merchant_id order_id amount
    currency items return_url cancel_url)

/-- The signing string induced by a slot list (used to state the
field-change sensitivity property). -/
def slotsSigningString (l : List String) : String :=
  joinPipe (l.filter (fun v => v != ""))

/-! ### app/models.py — rows and the persistent store

Descriptive text columns (image, description, long_description,
raw-payload JSON) are carried only where a claim can observe them; the
JSON `raw_payload` of a transaction is modelled as the payload value it
serializes. -/

/-- Python exceptions surfaced by the embedded code. -/
inductive PyErr where
  | integrityError
  | attributeError (attr : String)
  | indexError
deriving DecidableEq

/-- A `services` row. -/
structure ServiceRow where
  id : Nat
  name : String
  price : ℚ
deriving DecidableEq

/-- An `orders` row. -/
structure OrderRow where
  id : String
  service_id : Nat
  unit_price : ℚ
  quantity : ℤ
  amount : ℚ
  customer_name : String
  customer_details : Option CustomerMap := none
  status : String
  created_at : Nat
  updated_at : Nat
deriving DecidableEq

/-- A `payments` row. -/
structure PaymentRow where
  id : Nat
  order_id : String
  user_id : Option Nat
  amount : ℚ
  currency : String
  method : Option String
  status : String
  gateway_reference : Option String
  processed_at : Nat
  created_at : Nat
deriving DecidableEq

/-- How the timestamp field of a callback payload behaves under
`datetime.fromisoformat`: absent, a string parsing to a clock value, a
string the parser rejects, or a non-string value. -/
inductive TimestampField where
  | absent
  | iso (t : Nat)
  | malformed
  | nonstr
deriving DecidableEq

/-- The amount field of a callback payload: absent (`.get` default 0), a
numeric value, or a string handed to `Decimal`. -/
inductive AmountField where
  | absent
  | num (q : ℚ)
  | str (s : String)
deriving DecidableEq

/-- A webhook callback payload, with one slot per key the code probes.
`none` is a missing key (a JSON null behaves the same under the `or`
chains). -/
structure CallbackPayload where
  status : Option String := none
  timestamp : TimestampField := .absent
  currency : Option String := none
  order_id : Option String := none
  orderId : Option String := none
  orderID : Option String := none
  tran_id : Option String := none
  transaction_id : Option String := none
  transactionId : Option String := none
  trans_id : Option String := none
  amount : AmountField := .absent
deriving DecidableEq

/-- A `transactions` row. -/
structure TranRow where
  id : Nat
  order_id : Option String
  tran_id : Option String
  amount_value : ℚ
  currency : String
  status : String
  timestamp : Nat
  raw_payload : Option CallbackPayload
  created_at : Nat
deriving DecidableEq

/-- The persistent store: the SQLAlchemy-backed tables plus the
autoincrement counters of `payments.id` and `transactions.id`. -/
structure DB where
  services : List ServiceRow := []
  orders : List OrderRow := []
  payments : List PaymentRow := []
  transactions : List TranRow := []
  nextPaymentId : Nat := 1
  nextTranId : Nat := 1
deriving DecidableEq

/-! ### app/data.py — seed data and order creation -/

/-- The names and prices of `DEFAULT_SERVICES` (note the trailing spaces
present in the source). -/
def DEFAULT_SERVICES : List (String × ℚ) :=
  [("Auto Delete Comment - 1 Month Plan", 999 / 100),
   ("Facebook Station ", 2999 / 100),
   ("Report Facebook ", 11999 / 100),
   ("Telegram Station", 8999 / 100),
   ("Smart Desk Organizer", 5999 / 100)]

/-- The next autoincrement id for a freshly inserted service. -/
def nextServiceId (ss : List ServiceRow) : Nat :=
  (ss.foldl (fun a s => max a s.id) 0) + 1

/-- `ensure_seed_data`, restricted to the columns carried here: each
default entry updates the price of an existing service of the same name
or is inserted with a fresh id. -/
def ensure_seed_services (ss : List ServiceRow) : List ServiceRow :=
  DEFAULT_SERVICES.foldl
    (fun acc entry =>
      if acc.any (fun s => s.name == entry.1) then
        acc.map (fun s => if s.name == entry.1 then { s with price := entry.2 } else s)
      else acc ++ [{ id := nextServiceId acc, name := entry.1, price := entry.2 }])
    ss

/-- `Service.query.get` followed, on a miss, by `ensure_seed_data()` and a
second lookup — the pattern of `get_service` and `create_order_record`.
Returns the (possibly reseeded) services table and the lookup result. -/
def lookupServiceWithSeed (ss : List ServiceRow) (sid : Nat) :
    List ServiceRow × Option ServiceRow :=
  match ss.find? (fun s => s.id == sid) with
  | some s => (ss, some s)
  | none =>
    let ss2 := ensure_seed_services ss
    (ss2, ss2.find? (fun s => s.id == sid))

/-- Python `int(raw_quantity)` over the value kinds a JSON body can carry:
ints pass through, floats truncate toward zero, strings parse as signed
digit runs, booleans map to 0/1, anything else raises. -/
inductive QVal where
  | int (n : ℤ)
  | float (q : ℚ)
  | str (s : String)
  | bool (b : Bool)
  | pynone
deriving DecidableEq

/-- The result of `int(raw_quantity)`: `none` models a
TypeError/ValueError. -/
def pyInt : QVal → Option ℤ
  | .int n => some n
  | .float q => some (truncRat q)
  | .str s => pyIntOfStr s
  | .bool b => some (if b then 1 else 0)
  | .pynone => none

/-- `_coerce_quantity`. -/
def _coerce_quantity (raw : QVal) : ℤ :=
  match pyInt raw with
  | none => 1
  | some q => if q > 0 then q else 1

/-- `normalize_customer_name`. -/
def normalize_customer_name : CustomerVal → String
  | .dict m => (firstTruthyStr [m.name, m.full_name, m.fullName]).getD "Guest"
  | .str s => s
  | .other => "Guest"

/-- The generated order identifier
`ORDER-<UTC timestamp>-<sequence>` (the exact text format of the two
components is irrelevant to every claim). -/
def order_id_string (now seq : Nat) : String :=
  "ORDER-" ++ toString now ++ "-" ++ toString seq

/-- `create_order_record`; `seq` is the value drawn from the module-level
`_ORDER_SEQUENCE` counter. -/
def create_order_record (service_id : Nat) (customer : CustomerVal)
    (quantity : QVal) (now seq : Nat) (st : DB) :
    Except PyErr (DB × OrderRow) :=
  let looked := lookupServiceWithSeed st.services service_id
  match looked.2 with
  | none => .error .indexError
  | some service =>
    let safe_quantity := _coerce_quantity quantity
    let subtotal : ℚ := service.price * (safe_quantity : ℚ)
    let order : OrderRow :=
      { id := order_id_string now seq,
        service_id := service.id,
        unit_price := service.price,
        quantity := safe_quantity,
        amount := subtotal,
        customer_name := normalize_customer_name customer,
        customer_details :=
          match customer with
          | .dict m => if custIsEmpty m then none else some m
          | _ => none,
        status := "pending",
        created_at := now,
        updated_at := now }
    .ok ({ st with services := looked.1, orders := st.orders ++ [order] }, order)

/-- `update_order_status`. -/
def update_order_status (order_id status : String) (now : Nat) (st : DB) :
    Option (DB × OrderRow) :=
  match st.orders.find? (fun o => o.id == order_id) with
  | none => none
  | some o =>
    let o2 := { o with status := status, updated_at := now }
    some ({ st with
            orders := st.orders.map (fun x => if x.id == order_id then
              { x with status := status, updated_at := now } else x) }, o2)

/-! ### app/api.py — the PATCH /orders/{id} handler -/

/-- The `allowed_statuses` set of `mutate_order`. -/
def allowed_statuses : List String :=
  ["pending", "processing", "paid", "cancelled", "refunded", "failed"]

/-- Outcome of the PATCH /orders/{id} endpoint. -/
inductive MutateResp where
  | ok (o : OrderRow)
  | badRequest
  | notFound
deriving DecidableEq

/-- `mutate_order`: `statusArg` is `str(payload.get("status"))` when the
key is present (`none` covers a missing/None status and a missing or
empty JSON body, all of which abort with 400). -/
def mutate_order (order_id : String) (statusArg : Option String) (now : Nat)
    (st : DB) : DB × MutateResp :=
  match statusArg with
  | none => (st, .badRequest)
  | some raw =>
    let status_normalized := pyLower raw
    if allowed_statuses.contains status_normalized then
      match update_order_status order_id status_normalized now st with
      | none => (st, .notFound)
      | some (st2, o) => (st2, .ok o)
    else (st, .badRequest)

/-! ### app/data.py — payment upsert and callback ingestion -/

/-- `record_payment`: the Payment upsert.  A truthy `gateway_reference`
that matches an existing row updates that row in place; otherwise a new
row is inserted (committing an insert whose non-null reference collides
with an existing row surfaces the UNIQUE violation). -/
def record_payment (order_id : String) (amount : ℚ) (currency status : String)
    (method : Option String) (gateway_reference : Option String)
    (user_id : Option Nat) (now : Nat) (st : DB) :
    Except PyErr (DB × PaymentRow) :=
  match (if isTruthyStr gateway_reference then
           st.payments.find? (fun p => p.gateway_reference == gateway_reference)
         else none) with
  | some existing =>
    let upd := fun (p : PaymentRow) =>
      { p with amount := amount, currency := currency, status := status,
               method := method,
               user_id := match user_id with
                 | some u => if u != 0 then some u else p.user_id
                 | none => p.user_id,
               processed_at := now }
    .ok ({ st with payments :=
            st.payments.map (fun p => if p.id == existing.id then upd p else p) },
         upd existing)
  | none =>
    let clash := match gateway_reference with
      | some g => st.payments.any (fun p => p.gateway_reference == some g)
      | none => false
    if clash then .error .integrityError
    else
      let row : PaymentRow :=
        { id := st.nextPaymentId, order_id := order_id, user_id := user_id,
          amount := amount, currency := currency, method := method,
          status := status, gateway_reference := gateway_reference,
          processed_at := now, created_at := now }
      .ok ({ st with payments := st.payments ++ [row],
                     nextPaymentId := st.nextPaymentId + 1 }, row)

/-- The normalized callback status:
`(payload.get("status") or "success").lower()`. -/
def normalizedStatus (p : CallbackPayload) : String :=
  pyLower (pyOrStr p.status "success")

/-- The callback currency: `payload.get("currency") or "USD"`. -/
def resolvedCurrency (p : CallbackPayload) : String :=
  pyOrStr p.currency "USD"

/-- The resolved order identifier:
`payload.get("order_id") or payload.get("orderId") or payload.get("orderID")`. -/
def resolvedOrderId (p : CallbackPayload) : Option String :=
  orChain [p.order_id, p.orderId, p.orderID]

/-- The resolved external transaction identifier, falling back to the
resolved order id. -/
def resolvedTranId (p : CallbackPayload) : Option String :=
  orChain [p.tran_id, p.transaction_id, p.transactionId, p.trans_id,
           resolvedOrderId p]

/-- `Decimal(str(payload.get("amount", 0)))` with the except-branch
default `Decimal("0.00")`. -/
def parsedAmount : AmountField → ℚ
  | .absent => 0
  | .num q => q
  | .str s => (parseDecimal s).getD 0

/-- Timestamp resolution: an ISO string parses to its value, everything
else falls back to the ingestion-time clock. -/
def resolveTimestamp : TimestampField → Nat → Nat
  | .iso t, _ => t
  | _, now => now

/-- The UNIQUE constraint on `transactions.tran_id` (NULLs are exempt). -/
def tranUniqueViolated (ts : List TranRow) : Option String → Bool
  | some s => ts.any (fun r => r.tran_id == some s)
  | none => false

/-- The Transaction row staged by `register_transaction`. -/
def mkTranRow (p : CallbackPayload) (now : Nat) (nextId : Nat) : TranRow :=
  { id := nextId,
    order_id := resolvedOrderId p,
    tran_id := resolvedTranId p,
    amount_value := parsedAmount p.amount,
    currency := resolvedCurrency p,
    status := normalizedStatus p,
    timestamp := resolveTimestamp p.timestamp now,
    raw_payload := some p,
    created_at := now }

/-- The in-commit Order synchronization: when the resolved order id is
truthy and names a stored order, its status becomes "paid" for a
"success" callback and the normalized status verbatim otherwise, and
`updated_at` is refreshed. -/
def applyOrderSync (orders : List OrderRow) (oid : Option String)
    (status : String) (now : Nat) : List OrderRow :=
  if isTruthyStr oid then
    orders.map (fun o =>
      if o.id == oid.getD "" then
        { o with status := if status = "success" then "paid" else status,
                 updated_at := now }
      else o)
  else orders

/-- `register_transaction`.  The staged Transaction insert and Order
update commit atomically; a UNIQUE violation on `tran_id` rolls both back
and propagates (`except SQLAlchemyError: rollback; raise`).  After a
successful commit, a qualifying callback upserts the Payment row via
`record_payment`.  The returned store is the persistent state after the
call in every outcome. -/
def register_transaction (p : CallbackPayload) (now : Nat) (st : DB) :
    DB × Except PyErr TranRow :=
  let trow := mkTranRow p now st.nextTranId
  if tranUniqueViolated st.transactions (resolvedTranId p) then
    (st, .error .integrityError)
  else
    let st1 : DB :=
      { st with
        transactions := st.transactions ++ [trow],
        orders := applyOrderSync st.orders (resolvedOrderId p)
                    (normalizedStatus p) now,
        nextTranId := st.nextTranId + 1 }
    if isTruthyStr (resolvedOrderId p) && (parsedAmount p.amount != 0) &&
        (normalizedStatus p == "success" || normalizedStatus p == "paid") then
      match record_payment ((resolvedOrderId p).getD "") (parsedAmount p.amount)
              (resolvedCurrency p)
              (if normalizedStatus p == "success" then "captured"
               else normalizedStatus p)
              (some "ABA PayWay") (resolvedTranId p) none now st1 with
      | .ok (st2, _) => (st2, .ok trow)
      | .error e => (st1, .error e)
    else (st1, .ok trow)

/-! ### app/routes.py — the webhook success callback -/

/-- The top-level names the module `app.data` actually defines (its
module-level assignments, functions and imports).  `routes.py` resolves
`data.SERVICES`, `data.ORDER_HISTORY` and `data.TRANSACTION_HISTORY`
against this namespace at request time. -/
def dataModuleAttrs : List String :=
  ["annotations", "json", "datetime", "Decimal", "count", "Any", "Iterable",
   "SQLAlchemyError", "db", "Order", "Payment", "Report", "Service",
   "Transaction", "User", "LICENSE_DATA", "DEFAULT_SERVICES",
   "_CANONICAL_IMAGE_LOOKUP", "_normalize_static_image_name",
   "PRICING_PLAN_DEFINITIONS", "_ORDER_SEQUENCE", "ensure_seed_data",
   "_service_to_dict", "list_services", "list_pricing_plans", "get_service",
   "_coerce_quantity", "normalize_customer_name", "_serialize_order",
   "create_order_record", "list_orders", "get_order", "update_order_status",
   "list_licenses", "list_users", "create_user", "list_payments",
   "record_payment", "payments_summary", "list_reports", "create_report",
   "resolve_report", "_serialize_transaction", "list_transactions",
   "register_transaction", "transaction_summary"]

/-- An HTTP-level response of the webhook route. -/
inductive WebResponse where
  | redirect (status : Nat) (endpoint : String)
deriving DecidableEq

/-- `dict.setdefault` on a form dictionary. -/
def setFormDefault (form : List (String × String)) (k v : String) :
    List (String × String) :=
  if form.any (fun kv => kv.1 == k) then form else form ++ [(k, v)]

/-- The POST /payment/success handler of app/routes.py: it sets payload
defaults and then dereferences `data.TRANSACTION_HISTORY`, which raises
`AttributeError` whenever that name is not an attribute of `app.data`
(Flask turns the uncaught exception into a 500 response). -/
def payment_success (form : List (String × String)) (now : Nat) :
    Except PyErr WebResponse :=
  let payload :=
    setFormDefault (setFormDefault form "timestamp" (toString now))
      "status" "success"
  if dataModuleAttrs.contains "TRANSACTION_HISTORY" then
    let _ := payload
    .ok (.redirect 302 "main.dashboard")
  else .error (.attributeError "TRANSACTION_HISTORY")

deriving instance DecidableEq for Except

/-! ### Properties of the pipe-joined signing string -/

/-- Unfolding `joinPipeL` at a cons with nonempty tail. -/
theorem joinPipeL_cons (a : List Char) (l : List (List Char)) (h : l ≠ []) :
    joinPipeL (a :: l) = a ++ '|' :: joinPipeL l := by
  cases l with
  | nil => exact absurd rfl h
  | cons b t => rfl

/-- Length of a nonempty pipe join: payload lengths plus separators. -/
theorem joinPipeL_length (L : List (List Char)) (h : L ≠ []) :
    (joinPipeL L).length = (L.map List.length).sum + L.length - 1 := by
  induction L with
  | nil => exact absurd rfl h
  | cons a t ih =>
    cases t with
    | nil => simp [joinPipeL]
    | cons b t2 =>
      rw [joinPipeL_cons a (b :: t2) (by simp)]
      have := ih (by simp)
      simp only [List.length_append, List.length_cons, List.map_cons,
        List.sum_cons] at this ⊢
      omega

/-- A pipe join is injective in a single slot: if every other slot is
unchanged and the two values of the changed slot are nonempty, equal
joins force equal values. -/
theorem joinPipeL_inj_slot (A B : List (List Char)) (w v : List Char)
    (h : joinPipeL (A ++ w :: B) = joinPipeL (A ++ v :: B)) : w = v := by
  induction A with
  | nil =>
    cases B with
    | nil => simpa [joinPipeL] using h
    | cons b t =>
      rw [List.nil_append, List.nil_append,
        joinPipeL_cons w (b :: t) (by simp),
        joinPipeL_cons v (b :: t) (by simp)] at h
      have hlen := congrArg List.length h
      simp only [List.length_append, List.length_cons] at hlen
      exact (List.append_inj h (by omega)).1
  | cons a t ih =>
    rw [List.cons_append, List.cons_append,
      joinPipeL_cons a (t ++ w :: B) (by simp),
      joinPipeL_cons a (t ++ v :: B) (by simp)] at h
    exact ih (by simpa using List.append_cancel_left h)

/-- Inserting a nonempty slot into a pipe join changes it. -/
theorem joinPipeL_insert_ne (A B : List (List Char)) (v : List Char)
    (hv : v ≠ []) : joinPipeL (A ++ B) ≠ joinPipeL (A ++ v :: B) := by
  intro h
  by_cases hab : A ++ B = []
  · rw [hab] at h
    rcases List.append_eq_nil.mp hab with ⟨ha, hb⟩
    rw [ha, hb] at h
    exact hv (by simpa [joinPipeL] using h.symm)
  · have h1 := joinPipeL_length (A ++ B) hab
    have h2 := joinPipeL_length (A ++ v :: B) (by
      intro hx
      exact (List.cons_ne_nil v B) (List.append_eq_nil.mp hx).2)
    have hlen := congrArg List.length h
    have hvpos : 0 < v.length := List.length_pos.mpr hv
    have hn : 0 < (A ++ B).length := List.length_pos.mpr hab
    rw [h1, h2] at hlen
    simp only [List.map_append, List.sum_append, List.map_cons, List.sum_cons,
      List.length_append, List.length_cons] at hlen hn
    omega

/-- `joinPipe` agrees with `joinPipeL` through `String.data`. -/
theorem joinPipe_data (L : List String) :
    (joinPipe L).data = joinPipeL (L.map String.data) := by
  induction L with
  | nil => rfl
  | cons a t ih =>
    cases t with
    | nil => rfl
    | cons b t2 =>
      show (a ++ "|" ++ joinPipe (b :: t2)).data = _
      rw [List.map_cons, joinPipeL_cons _ _ (by simp)]
      simp [String.data_append, ih]

/-- The filtered slot lists of two slot lists differing in one position
decompose into a shared prefix and suffix around the two values. -/
theorem filter_slots_decomp (A B : List String) (w : String) :
    ((A ++ w :: B).filter (fun v => v != "")).map String.data =
      ((A.filter (fun v => v != "")).map String.data) ++
        (if w.data = [] then [] else [w.data]) ++
        ((B.filter (fun v => v != "")).map String.data) := by
  rw [List.filter_append, List.filter_cons]
  by_cases hw : w = ""
  · subst hw
    simp
  · have hd : w.data ≠ [] := by
      intro h0
      exact hw (String.ext h0)
    simp [hw, hd]

/-- Changing the value of exactly one signing slot changes the signing
string (the HMAC input), whatever the values are — including changing a
field to or from the empty value the join skips. -/
theorem slotsSigningString_one_change (A B : List String) (w v : String)
    (hne : w ≠ v) :
    slotsSigningString (A ++ w :: B) ≠ slotsSigningString (A ++ v :: B) := by
  intro h
  have hdata := congrArg String.data h
  rw [slotsSigningString, slotsSigningString, joinPipe_data, joinPipe_data,
    filter_slots_decomp, filter_slots_decomp] at hdata
  set FA := (A.filter (fun x => x != "")).map String.data with hFA
  set FB := (B.filter (fun x => x != "")).map String.data with hFB
  have hwv : w.data ≠ v.data := fun h0 => hne (String.ext h0)
  by_cases hw : w.data = []
  · by_cases hv : v.data = []
    · exact hwv (hw.trans hv.symm)
    · rw [hw] at hdata
      simp only [if_pos rfl, if_neg hv, List.append_nil, List.append_assoc,
        List.singleton_append] at hdata
      exact joinPipeL_insert_ne FA FB v.data hv hdata
  · by_cases hv : v.data = []
    · rw [hv] at hdata
      simp only [if_pos rfl, if_neg hw, List.append_nil, List.append_assoc,
        List.singleton_append] at hdata
      exact joinPipeL_insert_ne FA FB w.data hw hdata.symm
    · simp only [if_neg hw, if_neg hv, List.append_assoc,
        List.singleton_append] at hdata
      exact hwv (joinPipeL_inj_slot FA FB w.data v.data hdata)

/-- The hash attached by `create_checkout_payload` is the keyed MAC of the
signing string of its slot values. -/
theorem create_checkout_hash_eq (c : PaywayClient)
    (order_id amount items : String) (customer : Option CustomerMap)
    (currency : String) :
    (create_checkout_payload c order_id amount items customer
        currency).payload.hash =
      hmacSha512Hex c.api_key
        (slotsSigningString (signingSlots c order_id amount items currency)) := by
  cases customer with
  | none => rfl
  | some m =>
    by_cases hm : custIsEmpty m = true
    · simp [create_checkout_payload, slotsSigningString, signingSlots, hm]
    · simp [create_checkout_payload, slotsSigningString, signingSlots,
        Bool.not_eq_true _ ▸ hm, hm]

/-- C4: for every checkout built with a valid configuration, the
payload's hash equals the hex HMAC-SHA512, keyed with the API key, of the
signing string joining with a pipe the values of merchant_id, order_id,
amount, currency, items, return_url, cancel_url in that order and
skipping empty values; identical inputs and configuration yield an
identical hash, and changing any one signing-field value (including
omitting a field, i.e. making it empty) changes the HMAC input, so equal
hashes for such a pair would exhibit an HMAC-SHA512 collision. -/
theorem c4_checkout_hash (c : PaywayClient) (hc : validConfig c = true)
    (order_id amount items : String) (customer : Option CustomerMap)
    (currency : String) :
    (create_checkout_payload c order_id amount items customer
        currency).payload.hash =
      specHash c.api_key c.merchant_id order_id amount currency items
        c.return_url c.cancel_url
    ∧ (∀ customer2 : Option CustomerMap,
        (create_checkout_payload c order_id amount items customer2
            currency).payload.hash =
          (create_checkout_payload c order_id amount items customer
              currency).payload.hash)
    ∧ (∀ (c2 : PaywayClient) (order_id2 amount2 items2 currency2 : String)
        (customer2 : Option CustomerMap) (A B : List String) (w v : String),
        validConfig c2 = true →
        c2.api_key = c.api_key →
        signingSlots c order_id amount items currency = A ++ w :: B →
        signingSlots c2 order_id2 amount2 items2 currency2 = A ++ v :: B →
        w ≠ v →
        slotsSigningString (signingSlots c2 order_id2 amount2 items2
            currency2) ≠
          slotsSigningString (signingSlots c order_id amount items currency)
        ∧ ((create_checkout_payload c2 order_id2 amount2 items2 customer2
              currency2).payload.hash =
            (create_checkout_payload c order_id amount items customer
                currency).payload.hash →
            ∃ s1 s2, s1 ≠ s2 ∧
              hmacSha512Hex c.api_key s1 = hmacSha512Hex c.api_key s2)) := by
  refine ⟨?_, ?_, ?_⟩
  · rw [create_checkout_hash_eq]
    rfl
  · intro customer2
    rw [create_checkout_hash_eq, create_checkout_hash_eq]
  · intro c2 order_id2 amount2 items2 currency2 customer2 A B w v hv2 hkey
      h1 h2 hne
    have hs : slotsSigningString (signingSlots c2 order_id2 amount2 items2
        currency2) ≠
        slotsSigningString (signingSlots c order_id amount items currency) := by
      rw [h1, h2]
      exact slotsSigningString_one_change A B v w (Ne.symm hne)
    refine ⟨hs, fun hh => ?_⟩
    rw [create_checkout_hash_eq, create_checkout_hash_eq, hkey] at hh
    exact ⟨_, _, hs, hh⟩

/-- A concrete valid PayWay configuration for witnesses. -/
def witnessClient : PaywayClient :=
  { merchant_id := "M1", api_key := "key", public_key := "PK",
    checkout_url := "https://checkout.example/api/purchase",
    return_url := "https://app.example/payment/confirm",
    cancel_url := "https://app.example/services" }

/-- Witness for C4 at a concrete valid configuration and concrete
checkout inputs. -/
theorem c4_checkout_hash_witness :
    (create_checkout_payload witnessClient "O1" "19.98" "Item" none
        "USD").payload.hash =
      specHash "key" "M1" "O1" "19.98" "USD" "Item"
        "https://app.example/payment/confirm"
        "https://app.example/services" :=
  (c4_checkout_hash witnessClient (by decide) "O1" "19.98" "Item" none
    "USD").1

/-! ### Inversion lemmas for the store operations -/

/-- What a successful `create_order_record` does to the store: it appends
exactly the returned order, whose status is "pending", whose quantity is
the coerced quantity and whose customer name is the normalized one; other
tables are untouched. -/
theorem create_order_record_ok_inv (service_id : Nat) (customer : CustomerVal)
    (v : QVal) (now seq : Nat) (st st2 : DB) (o : OrderRow)
    (h : create_order_record service_id customer v now seq st = .ok (st2, o)) :
    st2.orders = st.orders ++ [o] ∧ o.status = "pending" ∧
    o.quantity = _coerce_quantity v ∧
    o.customer_name = normalize_customer_name customer ∧
    st2.payments = st.payments ∧ st2.transactions = st.transactions := by
  simp only [create_order_record] at h
  rcases hf : (lookupServiceWithSeed st.services service_id).2 with _ | svc
  · rw [hf] at h
    simp at h
  · rw [hf] at h
    simp only [Except.ok.injEq, Prod.mk.injEq] at h
    obtain ⟨h1, h2⟩ := h
    subst h1
    subst h2
    exact ⟨rfl, rfl, rfl, rfl, rfl, rfl⟩

/-- A successful `record_payment` touches only the payments table. -/
theorem record_payment_frame (order_id : String) (amount : ℚ)
    (currency status : String) (method gateway_reference : Option String)
    (user_id : Option Nat) (now : Nat) (st st2 : DB) (r : PaymentRow)
    (h : record_payment order_id amount currency status method
          gateway_reference user_id now st = .ok (st2, r)) :
    st2.orders = st.orders ∧ st2.transactions = st.transactions ∧
    st2.services = st.services := by
  simp only [record_payment] at h
  rcases hf : (if isTruthyStr gateway_reference then
      st.payments.find? (fun p => p.gateway_reference == gateway_reference)
    else none) with _ | existing
  · rw [hf] at h
    rcases hcl : (match gateway_reference with
      | some g => st.payments.any (fun p => p.gateway_reference == some g)
      | none => false) with _ | _
    · rw [hcl] at h
      simp only [Bool.false_eq_true, if_false, Except.ok.injEq,
        Prod.mk.injEq] at h
      obtain ⟨h1, h2⟩ := h
      subst h1
      exact ⟨rfl, rfl, rfl⟩
    · rw [hcl] at h
      simp at h
  · rw [hf] at h
    simp only [Except.ok.injEq, Prod.mk.injEq] at h
    obtain ⟨h1, h2⟩ := h
    subst h1
    exact ⟨rfl, rfl, rfl⟩

/-- C5 (code bug): every POST of form data to the webhook success
callback raises: the handler dereferences `data.TRANSACTION_HISTORY`,
which `app.data` does not define, so an `AttributeError` escapes (and the
framework answers 500) instead of the specified 302 redirect. -/
theorem c5_webhook_always_raises (form : List (String × String)) (now : Nat) :
    payment_success form now = .error (.attributeError "TRANSACTION_HISTORY") :=
  rfl

/-- A one-service store used by the concrete order-creation witnesses:
service 1 costs 9.99. -/
def orderDemoDB : DB :=
  { services := [{ id := 1, name := "Demo Service", price := 999 / 100 }] }

/-- C6: with a resolvable service whose price has two decimal places and
an integer quantity between 1 and 10000, the stored order's amount is
exactly `unit_price * quantity` in exact (rational) arithmetic, and the
created row is exactly what is appended to the orders table. -/
theorem c6_amount_exact (service_id : Nat) (customer : CustomerVal) (n : ℤ)
    (now seq : Nat) (st : DB) (svc : ServiceRow)
    (hfind : (lookupServiceWithSeed st.services service_id).2 = some svc)
    (cents : ℕ) (hprice : svc.price = (cents : ℚ) / 100)
    (h1 : 1 ≤ n) (h2 : n ≤ 10000) :
    ((create_order_record service_id customer (QVal.int n) now seq
          st).toOption.map
        (fun r => (r.2.unit_price, r.2.quantity, r.2.amount))) =
      some (svc.price, n, svc.price * (n : ℚ))
    ∧ svc.price * (n : ℚ) = ((cents : ℚ) * (n : ℚ)) / 100
    ∧ (∀ st2 o, create_order_record service_id customer (QVal.int n) now seq
          st = .ok (st2, o) → st2.orders = st.orders ++ [o]) := by
  have hq : _coerce_quantity (QVal.int n) = n := by
    simp only [_coerce_quantity, pyInt]
    have : n > 0 := by omega
    simp [this]
  refine ⟨?_, ?_, ?_⟩
  · simp only [create_order_record, hfind, hq, Except.toOption, Option.map]
  · rw [hprice]
    ring
  · intro st2 o h
    exact (create_order_record_ok_inv _ _ _ _ _ _ _ _ h).1

/-- Witness for C6: a 9.99 service with quantity 3 stores exactly 29.97. -/
theorem c6_amount_exact_witness :
    ((create_order_record 1 .other (QVal.int 3) 0 1 orderDemoDB).toOption.map
        (fun r => (r.2.unit_price, r.2.quantity, r.2.amount))) =
      some ((999 / 100 : ℚ), (3 : ℤ), (2997 / 100 : ℚ)) := by
  have h := (c6_amount_exact 1 .other 3 0 1 orderDemoDB
    { id := 1, name := "Demo Service", price := 999 / 100 }
    rfl 999 (by norm_num) (by decide) (by decide)).1
  rw [h]
  norm_num

/-- The non-integral rational 3.7, given in normalized form so that its
fields are literal. -/
def ratThreePointSeven : ℚ := ⟨37, 10, by decide, by decide⟩

/-- Counterexample to C7 as stated: the quantity 3.7 is not an integer,
yet `createOrder` stores 3 (the truncation), not 1. -/
theorem c7_counterexample :
    ((create_order_record 1 .other (QVal.float ratThreePointSeven) 0 1
        orderDemoDB).toOption.map (fun r => r.2.quantity)) = some 3
    ∧ ratThreePointSeven.den ≠ 1 ∧ (3 : ℤ) ≠ 1 :=
  ⟨rfl, by decide, by decide⟩

/-- C7 as amended: values on which `int()` raises store quantity 1, as do
values whose integer conversion is non-positive; a positive integer is
stored unchanged; a float stores its truncation toward zero (so a
non-integral float like 3.7 stores 3, not 1). -/
theorem c7_quantity_coercion (service_id : Nat) (customer : CustomerVal)
    (v : QVal) (now seq : Nat) (st : DB) (svc : ServiceRow)
    (hfind : (lookupServiceWithSeed st.services service_id).2 = some svc) :
    ((create_order_record service_id customer v now seq st).toOption.map
        (fun r => r.2.quantity)) = some (_coerce_quantity v)
    ∧ (pyInt v = none →
        ((create_order_record service_id customer v now seq st).toOption.map
          (fun r => r.2.quantity)) = some 1)
    ∧ (∀ m : ℤ, pyInt v = some m → m ≤ 0 →
        ((create_order_record service_id customer v now seq st).toOption.map
          (fun r => r.2.quantity)) = some 1)
    ∧ (∀ n : ℤ, v = QVal.int n → 0 < n →
        ((create_order_record service_id customer v now seq st).toOption.map
          (fun r => r.2.quantity)) = some n)
    ∧ (∀ q : ℚ, v = QVal.float q → 0 < truncRat q →
        ((create_order_record service_id customer v now seq st).toOption.map
          (fun r => r.2.quantity)) = some (truncRat q)) := by
  have hbase : ((create_order_record service_id customer v now seq
      st).toOption.map (fun r => r.2.quantity)) = some (_coerce_quantity v) := by
    simp only [create_order_record, hfind, Except.toOption, Option.map]
  refine ⟨hbase, ?_, ?_, ?_, ?_⟩
  · intro h
    rw [hbase]
    simp [_coerce_quantity, h]
  · intro m hm hle
    rw [hbase]
    have : ¬ m > 0 := by omega
    simp [_coerce_quantity, hm, this]
  · intro n hn hpos
    subst hn
    rw [hbase]
    simp [_coerce_quantity, pyInt, hpos]
  · intro q hq hpos
    subst hq
    rw [hbase]
    simp [_coerce_quantity, pyInt, hpos]

/-- Witness for C7 as amended: quantity 5 is stored unchanged. -/
theorem c7_quantity_coercion_witness :
    ((create_order_record 1 .other (QVal.int 5) 0 1 orderDemoDB).toOption.map
        (fun r => r.2.quantity)) = some 5 :=
  (c7_quantity_coercion 1 .other (QVal.int 5) 0 1 orderDemoDB
    { id := 1, name := "Demo Service", price := 999 / 100 }
    rfl).2.2.2.1 5 rfl (by decide)

/-- Counterexample to C9 as stated: with both a name field ("Alice") and
a full-name field ("Bob") present, the stored customer name is the name
value, not the full-name value the claim requires. -/
theorem c9_counterexample :
    ((create_order_record 1
        (.dict { name := some "Alice", full_name := some "Bob" })
        (QVal.int 1) 0 1 orderDemoDB).toOption.map
      (fun r => r.2.customer_name)) = some "Alice"
    ∧ "Alice" ≠ "Bob" :=
  ⟨rfl, by decide⟩

/-- C9 as amended: the stored customer name checks the name field first,
then full_name, then fullName, and falls back to "Guest"; in particular
when both name and full_name are present, the name value wins. -/
theorem c9_customer_name (service_id : Nat) (m : CustomerMap) (v : QVal)
    (now seq : Nat) (st : DB) (svc : ServiceRow)
    (hfind : (lookupServiceWithSeed st.services service_id).2 = some svc) :
    (isTruthyStr m.name = true →
      ((create_order_record service_id (.dict m) v now seq st).toOption.map
        (fun r => r.2.customer_name)) = some (m.name.getD ""))
    ∧ (isTruthyStr m.name = false → isTruthyStr m.full_name = true →
      ((create_order_record service_id (.dict m) v now seq st).toOption.map
        (fun r => r.2.customer_name)) = some (m.full_name.getD ""))
    ∧ (isTruthyStr m.name = false → isTruthyStr m.full_name = false →
        isTruthyStr m.fullName = true →
      ((create_order_record service_id (.dict m) v now seq st).toOption.map
        (fun r => r.2.customer_name)) = some (m.fullName.getD ""))
    ∧ (isTruthyStr m.name = false → isTruthyStr m.full_name = false →
        isTruthyStr m.fullName = false →
      ((create_order_record service_id (.dict m) v now seq st).toOption.map
        (fun r => r.2.customer_name)) = some "Guest") := by
  have hbase : ((create_order_record service_id (.dict m) v now seq
      st).toOption.map (fun r => r.2.customer_name)) =
      some (normalize_customer_name (.dict m)) := by
    simp only [create_order_record, hfind, Except.toOption, Option.map]
  refine ⟨?_, ?_, ?_, ?_⟩
  · intro h1
    rw [hbase]
    rcases hn : m.name with _ | s <;> rw [hn] at h1 <;>
      simp_all [isTruthyStr, normalize_customer_name, firstTruthyStr,
        List.findSome?]
  · intro h1 h2
    rw [hbase]
    rcases hn : m.name with _ | s <;> rw [hn] at h1 <;>
      rcases hf : m.full_name with _ | t <;> rw [hf] at h2 <;>
      simp_all [isTruthyStr, normalize_customer_name, firstTruthyStr,
        List.findSome?]
  · intro h1 h2 h3
    rw [hbase]
    rcases hn : m.name with _ | s <;> rw [hn] at h1 <;>
      rcases hf : m.full_name with _ | t <;> rw [hf] at h2 <;>
      rcases hg : m.fullName with _ | u <;> rw [hg] at h3 <;>
      simp_all [isTruthyStr, normalize_customer_name, firstTruthyStr,
        List.findSome?]
  · intro h1 h2 h3
    rw [hbase]
    rcases hn : m.name with _ | s <;> rw [hn] at h1 <;>
      rcases hf : m.full_name with _ | t <;> rw [hf] at h2 <;>
      rcases hg : m.fullName with _ | u <;> rw [hg] at h3 <;>
      simp_all [isTruthyStr, normalize_customer_name, firstTruthyStr,
        List.findSome?]

/-- Witness for C9 as amended: both fields present, "Alice" (name) wins
over "Bob" (full_name). -/
theorem c9_customer_name_witness :
    ((create_order_record 1
        (.dict { name := some "Alice", full_name := some "Bob" })
        (QVal.int 1) 0 1 orderDemoDB).toOption.map
      (fun r => r.2.customer_name)) = some "Alice" :=
  (c9_customer_name 1 { name := some "Alice", full_name := some "Bob" }
    (QVal.int 1) 0 1 orderDemoDB
    { id := 1, name := "Demo Service", price := 999 / 100 } rfl).1 (by decide)

/-- Every order after the in-commit synchronization is either an original
row or an original row with the canonical callback status and a refreshed
`updated_at`. -/
theorem applyOrderSync_mem (orders : List OrderRow) (oid : Option String)
    (s : String) (now : Nat) (x : OrderRow)
    (hx : x ∈ applyOrderSync orders oid s now) :
    (∃ o ∈ orders, x = o) ∨
    (∃ o ∈ orders,
      x = { o with status := if s = "success" then "paid" else s,
                   updated_at := now }) := by
  unfold applyOrderSync at hx
  by_cases ht : isTruthyStr oid = true
  · rw [if_pos ht] at hx
    rcases List.mem_map.mp hx with ⟨o, ho, hfo⟩
    by_cases hid : (o.id == oid.getD "") = true
    · rw [if_pos hid] at hfo
      exact Or.inr ⟨o, ho, hfo.symm⟩
    · rw [if_neg hid] at hfo
      exact Or.inl ⟨o, ho, hfo.symm⟩
  · rw [if_neg ht] at hx
    exact Or.inl ⟨x, hx, rfl⟩

/-- Counterexample to C8 as stated: ingesting a callback whose normalized
status is "chargeback" for an existing order stores "chargeback" on the
order, which is outside the allowed status set. -/
def ingestDemoDB : DB :=
  { orders := [{ id := "ORD1", service_id := 1, unit_price := 1,
                 quantity := 1, amount := 1, customer_name := "G",
                 status := "pending", created_at := 0, updated_at := 0 }] }

/-- The chargeback callback used to refute C8 as stated. -/
def chargebackPayload : CallbackPayload :=
  { order_id := some "ORD1", status := some "Chargeback",
    tran_id := some "T1", amount := .num 5 }

/-- Counterexample to C8: callback ingestion stores the out-of-enum
status "chargeback" on an existing order. -/
theorem c8_counterexample :
    ((register_transaction chargebackPayload 7 ingestDemoDB).1.orders.map
        (fun o => o.status)) = ["chargeback"]
    ∧ "chargeback" ∉ allowed_statuses :=
  ⟨rfl, by decide⟩

/-- C8 as amended: order creation and the PATCH status endpoint keep
every stored order status inside the allowed set, while callback
ingestion stores "paid" for success and otherwise the normalized callback
status verbatim — so after ingestion a status is either in the allowed
set or exactly the callback's normalized status (which may be outside
it). -/
theorem c8_status_values :
    (∀ (service_id : Nat) (customer : CustomerVal) (v : QVal) (now seq : Nat)
       (st st2 : DB) (o : OrderRow),
       create_order_record service_id customer v now seq st = .ok (st2, o) →
       (∀ x ∈ st.orders, x.status ∈ allowed_statuses) →
       ∀ x ∈ st2.orders, x.status ∈ allowed_statuses)
    ∧ (∀ (order_id : String) (statusArg : Option String) (now : Nat) (st : DB),
       (∀ x ∈ st.orders, x.status ∈ allowed_statuses) →
       ∀ x ∈ (mutate_order order_id statusArg now st).1.orders,
         x.status ∈ allowed_statuses)
    ∧ (∀ (p : CallbackPayload) (now : Nat) (st : DB),
       (∀ x ∈ st.orders, x.status ∈ allowed_statuses) →
       ∀ x ∈ (register_transaction p now st).1.orders,
         x.status ∈ allowed_statuses ∨ x.status = normalizedStatus p) := by
  refine ⟨?_, ?_, ?_⟩
  · intro service_id customer v now seq st st2 o h hst x hx
    obtain ⟨ho, hpend, -, -, -, -⟩ :=
      create_order_record_ok_inv service_id customer v now seq st st2 o h
    rw [ho] at hx
    rcases List.mem_append.mp hx with hx1 | hx1
    · exact hst x hx1
    · have : x = o := by simpa using hx1
      rw [this, hpend]
      decide
  · intro order_id statusArg now st hst x hx
    rcases statusArg with _ | raw
    · exact hst x hx
    · simp only [mutate_order] at hx
      by_cases hc : allowed_statuses.contains (pyLower raw) = true
      · rw [if_pos hc] at hx
        have hmem : pyLower raw ∈ allowed_statuses := by simpa using hc
        rcases hu : update_order_status order_id (pyLower raw) now st with _ | p2
        · rw [hu] at hx
          exact hst x hx
        · rw [hu] at hx
          simp only [update_order_status] at hu
          rcases hfo : st.orders.find? (fun o => o.id == order_id) with _ | o
          · rw [hfo] at hu
            simp at hu
          · rw [hfo] at hu
            simp only [Option.some.injEq] at hu
            rw [← hu] at hx
            rcases List.mem_map.mp hx with ⟨a, ha, hfa⟩
            by_cases hid : (a.id == order_id) = true
            · rw [if_pos hid] at hfa
              rw [← hfa]
              exact hmem
            · rw [if_neg hid] at hfa
              rw [← hfa]
              exact hst a ha
      · rw [if_neg hc] at hx
        exact hst x hx
  · intro p now st hst x hx
    by_cases hviol :
        tranUniqueViolated st.transactions (resolvedTranId p) = true
    · simp only [register_transaction, hviol, if_true] at hx
      exact Or.inl (hst x hx)
    · have hv2 : tranUniqueViolated st.transactions (resolvedTranId p) =
          false := by
        simpa using hviol
      simp only [register_transaction, hv2, Bool.false_eq_true,
        if_false] at hx
      set st1 : DB :=
        { st with
          transactions := st.transactions ++ [mkTranRow p now st.nextTranId],
          orders := applyOrderSync st.orders (resolvedOrderId p)
                      (normalizedStatus p) now,
          nextTranId := st.nextTranId + 1 } with hst1
      have hmem1 : ∀ y, y ∈ st1.orders →
          y.status ∈ allowed_statuses ∨ y.status = normalizedStatus p := by
        intro y hy
        rw [hst1] at hy
        rcases applyOrderSync_mem st.orders (resolvedOrderId p)
            (normalizedStatus p) now y hy with ⟨o, ho, rfl⟩ | ⟨o, ho, rfl⟩
        · exact Or.inl (hst _ ho)
        · by_cases hsucc : normalizedStatus p = "success"
          · rw [if_pos hsucc]
            left
            show "paid" ∈ allowed_statuses
            decide
          · rw [if_neg hsucc]
            right
            rfl
      by_cases hcond : (isTruthyStr (resolvedOrderId p) &&
          (parsedAmount p.amount != 0) &&
          (normalizedStatus p == "success" || normalizedStatus p == "paid"))
          = true
      · rw [if_pos hcond] at hx
        rcases hrp : record_payment ((resolvedOrderId p).getD "")
            (parsedAmount p.amount) (resolvedCurrency p)
            (if normalizedStatus p == "success" then "captured"
             else normalizedStatus p)
            (some "ABA PayWay") (resolvedTranId p) none now st1 with e | q2
        · rw [hrp] at hx
          exact hmem1 x hx
        · rw [hrp] at hx
          obtain ⟨horders, -, -⟩ := record_payment_frame _ _ _ _ _ _ _ _ _
            q2.1 q2.2 (by rw [hrp])
          simp only at hx
          rw [horders] at hx
          exact hmem1 x hx
      · rw [if_neg hcond] at hx
        exact hmem1 x hx

/-- A `get`-or chain whose final operand is truthy produces a truthy
value. -/
theorem orChain_concat_truthy (xs : List (Option String)) (y : Option String)
    (hy : isTruthyStr y = true) :
    isTruthyStr (orChain (xs ++ [y])) = true := by
  induction xs with
  | nil => simpa [orChain] using hy
  | cons x t ih =>
    rcases ht : t ++ [y] with _ | ⟨a, u⟩
    · exact absurd ht (by simp)
    · rcases x with _ | s
      · show isTruthyStr (orChain (none :: (t ++ [y]))) = true
        rw [ht]
        have hred : orChain (none :: a :: u) = orChain (a :: u) := rfl
        rw [hred, ← ht]
        exact ih
      · show isTruthyStr (orChain (some s :: (t ++ [y]))) = true
        rw [ht]
        have hred : orChain (some s :: a :: u) =
            if s = "" then orChain (a :: u) else some s := rfl
        rw [hred]
        by_cases hs : s = ""
        · rw [if_pos hs, ← ht]
          exact ih
        · rw [if_neg hs]
          simp [isTruthyStr, hs]

/-- A callback that resolves a truthy order id always resolves a truthy
transaction identifier (the tran-id chain falls back to the order id). -/
theorem resolvedTranId_truthy (p : CallbackPayload)
    (h : isTruthyStr (resolvedOrderId p) = true) :
    isTruthyStr (resolvedTranId p) = true := by
  show isTruthyStr (orChain
    ([p.tran_id, p.transaction_id, p.transactionId, p.trans_id] ++
      [resolvedOrderId p])) = true
  exact orChain_concat_truthy _ _ h

/-- `record_payment` with a truthy gateway reference always commits. -/
theorem record_payment_ok_of_truthy (order_id : String) (amount : ℚ)
    (currency status : String) (method : Option String) (gr : Option String)
    (uid : Option Nat) (now : Nat) (st : DB)
    (hg : isTruthyStr gr = true) :
    ∃ st2 row, record_payment order_id amount currency status method gr uid
        now st = .ok (st2, row) := by
  simp only [record_payment, hg, if_true]
  rcases hf : st.payments.find? (fun q => q.gateway_reference == gr) with _ | e
  · rw [hf]
    rcases gr with _ | g
    · simp [isTruthyStr] at hg
    · have hcl : st.payments.any (fun q => q.gateway_reference == some g) =
          false := by
        by_contra hany
        have hany2 : st.payments.any
            (fun q => q.gateway_reference == some g) = true := by
          revert hany
          cases st.payments.any (fun q => q.gateway_reference == some g) <;>
            simp
        rcases List.any_eq_true.mp hany2 with ⟨q, hq, hqe⟩
        exact List.find?_eq_none.mp hf q hq hqe
      simp only [hcl, Bool.false_eq_true, if_false]
      exact ⟨_, _, rfl⟩
  · rw [hf]
    exact ⟨_, _, rfl⟩

/-- Mapping a function that fixes every member leaves the list unchanged. -/
theorem listMapSelf {α : Type} (l : List α) (f : α → α)
    (h : ∀ x ∈ l, f x = x) : l.map f = l := by
  induction l with
  | nil => rfl
  | cons a t ih =>
    simp only [List.map_cons, h a (by simp)]
    rw [ih (fun x hx => h x (by simp [hx]))]

/-- A callback whose resolved transaction identifier does not collide
with a stored one commits: the call returns the staged row, appends
exactly that row to the audit trail, and rewrites the orders table by the
in-commit synchronization. -/
theorem register_transaction_fresh (p : CallbackPayload) (now : Nat) (st : DB)
    (hfresh : tranUniqueViolated st.transactions (resolvedTranId p) = false) :
    (register_transaction p now st).2 = .ok (mkTranRow p now st.nextTranId)
    ∧ (register_transaction p now st).1.transactions =
        st.transactions ++ [mkTranRow p now st.nextTranId]
    ∧ (register_transaction p now st).1.orders =
        applyOrderSync st.orders (resolvedOrderId p) (normalizedStatus p)
          now := by
  simp only [register_transaction, hfresh, Bool.false_eq_true, if_false]
  by_cases hcond : (isTruthyStr (resolvedOrderId p) &&
      (parsedAmount p.amount != 0) &&
      (normalizedStatus p == "success" || normalizedStatus p == "paid")) = true
  · rw [if_pos hcond]
    have htr : isTruthyStr (resolvedOrderId p) = true := by
      have h1 := (Bool.and_eq_true _ _).mp hcond
      exact ((Bool.and_eq_true _ _).mp h1.1).1
    have hgr : isTruthyStr (resolvedTranId p) = true :=
      resolvedTranId_truthy p htr
    obtain ⟨st2, row, hrp⟩ := record_payment_ok_of_truthy
      ((resolvedOrderId p).getD "") (parsedAmount p.amount)
      (resolvedCurrency p)
      (if normalizedStatus p == "success" then "captured"
       else normalizedStatus p)
      (some "ABA PayWay") (resolvedTranId p) none now
      { st with
        transactions := st.transactions ++ [mkTranRow p now st.nextTranId],
        orders := applyOrderSync st.orders (resolvedOrderId p)
                    (normalizedStatus p) now,
        nextTranId := st.nextTranId + 1 } hgr
    rw [hrp]
    obtain ⟨ho, htx, -⟩ := record_payment_frame _ _ _ _ _ _ _ _ _ _ _ hrp
    exact ⟨rfl, by simpa using htx, by simpa using ho⟩
  · rw [if_neg hcond]
    exact ⟨rfl, rfl, rfl⟩

/-- Witness payload for C8: after ingesting the chargeback callback the
stored order row carries the callback's normalized status. -/
def c8WitnessRow : OrderRow :=
  { id := "ORD1", service_id := 1, unit_price := 1, quantity := 1,
    amount := 1, customer_name := "G", customer_details := none,
    status := "chargeback", created_at := 0, updated_at := 7 }

/-- Witness for C8 as amended, at the chargeback ingestion: the stored
status is the callback's normalized status. -/
theorem c8_status_values_witness :
    c8WitnessRow.status ∈ allowed_statuses ∨
    c8WitnessRow.status = normalizedStatus chargebackPayload :=
  c8_status_values.2.2 chargebackPayload 7 ingestDemoDB (by decide)
    c8WitnessRow (by decide)

/-- Ingesting a callback whose resolved tran_id is already persisted
rolls back and surfaces the uniqueness violation, leaving the store
unchanged. -/
theorem register_transaction_dup_error (p : CallbackPayload) (now : Nat)
    (st : DB) (s : String) (hs : resolvedTranId p = some s)
    (hdup : ∃ r ∈ st.transactions, r.tran_id = some s) :
    register_transaction p now st = (st, .error .integrityError) := by
  have hviol : tranUniqueViolated st.transactions (resolvedTranId p) =
      true := by
    rw [hs]
    rcases hdup with ⟨r, hr, hrt⟩
    exact List.any_eq_true.mpr ⟨r, hr, by simp [hrt]⟩
  simp [register_transaction, hviol]

/-- C2 as amended: re-delivering a callback whose resolved tran_id is
already persisted does not create a second audit row and leaves the
stored state exactly as it was — but the uniqueness violation propagates
to the caller as an error instead of being swallowed as a no-op. -/
theorem c2_duplicate_redelivery (p : CallbackPayload) (now : Nat) (st : DB)
    (s : String) (hs : resolvedTranId p = some s)
    (hdup : ∃ r ∈ st.transactions, r.tran_id = some s) :
    register_transaction p now st = (st, .error .integrityError) :=
  register_transaction_dup_error p now st s hs hdup

/-- The callback used by the concrete C2 scenario. -/
def c2Payload : CallbackPayload :=
  { order_id := some "ORD1", tran_id := some "TX2", amount := .num 10 }

/-- Counterexample to C2 as stated: re-delivering the same callback does
not return normally — the second ingest surfaces the uniqueness violation
as an error (while indeed writing nothing). -/
theorem c2_counterexample :
    register_transaction c2Payload 5
        (register_transaction c2Payload 3 ingestDemoDB).1 =
      ((register_transaction c2Payload 3 ingestDemoDB).1,
        .error .integrityError)
    ∧ ((register_transaction c2Payload 3 ingestDemoDB).1).transactions.length
        = 1 :=
  ⟨rfl, rfl⟩

/-- Witness for C2 as amended at the concrete duplicate redelivery. -/
theorem c2_duplicate_redelivery_witness :
    register_transaction c2Payload 5
        (register_transaction c2Payload 3 ingestDemoDB).1 =
      ((register_transaction c2Payload 3 ingestDemoDB).1,
        .error .integrityError) :=
  c2_duplicate_redelivery c2Payload 5
    (register_transaction c2Payload 3 ingestDemoDB).1 "TX2" (by decide)
    ⟨mkTranRow c2Payload 3 1, by decide, by decide⟩

/-- C3 as amended: a callback whose resolved tran_id is fresh always
commits: the audit row is appended even when the order id names no stored
order (orphaned transaction), a named existing order gets status "paid"
for a success callback and the normalized status verbatim otherwise with
`updated_at` refreshed, and when no stored order is named the orders
table is untouched. -/
theorem c3_order_sync (p : CallbackPayload) (now : Nat) (st : DB)
    (hfresh : tranUniqueViolated st.transactions (resolvedTranId p) = false) :
    (register_transaction p now st).2 = .ok (mkTranRow p now st.nextTranId)
    ∧ (register_transaction p now st).1.transactions =
        st.transactions ++ [mkTranRow p now st.nextTranId]
    ∧ (∀ o ∈ st.orders, isTruthyStr (resolvedOrderId p) = true →
        o.id = (resolvedOrderId p).getD "" →
        { o with status := if normalizedStatus p = "success" then "paid"
                           else normalizedStatus p,
                 updated_at := now } ∈ (register_transaction p now st).1.orders)
    ∧ ((∀ o ∈ st.orders, o.id ≠ (resolvedOrderId p).getD "") →
        (register_transaction p now st).1.orders = st.orders) := by
  obtain ⟨hok, htx, hor⟩ := register_transaction_fresh p now st hfresh
  refine ⟨hok, htx, ?_, ?_⟩
  · intro o ho htr hid
    rw [hor]
    unfold applyOrderSync
    rw [if_pos htr]
    have hbeq : (o.id == (resolvedOrderId p).getD "") = true := by
      simp [hid]
    have := List.mem_map_of_mem
      (f := fun x => if x.id == (resolvedOrderId p).getD "" then
        { x with status := if normalizedStatus p = "success" then "paid"
                           else normalizedStatus p, updated_at := now }
        else x) ho
    simpa [hbeq] using this
  · intro hnone
    rw [hor]
    unfold applyOrderSync
    by_cases htr : isTruthyStr (resolvedOrderId p) = true
    · rw [if_pos htr]
      refine listMapSelf _ _ (fun x hx => ?_)
      have : (x.id == (resolvedOrderId p).getD "") = false := by
        simp [hnone x hx]
      rw [this]
      simp
    · rw [if_neg htr]

/-- First callback of the concrete C3 scenario (status "failed"). -/
def c3FailedPayload : CallbackPayload :=
  { order_id := some "ORD1", tran_id := some "TXA", status := some "failed",
    amount := .num 5 }

/-- Success redelivery of the same transaction id for C3. -/
def c3SuccessPayload : CallbackPayload :=
  { order_id := some "ORD1", tran_id := some "TXA", status := some "success",
    amount := .num 5 }

/-- Counterexample to C3 as stated: a success callback naming an existing
order, whose resolved tran_id is already persisted, does not set the
order to "paid" — the ingest errors and the order keeps its previous
status. -/
theorem c3_counterexample :
    (register_transaction c3SuccessPayload 5
        (register_transaction c3FailedPayload 3 ingestDemoDB).1).2 =
      .error .integrityError
    ∧ ((register_transaction c3SuccessPayload 5
        (register_transaction c3FailedPayload 3 ingestDemoDB).1).1.orders.map
      (fun o => o.status)) = ["failed"]
    ∧ "failed" ≠ "paid" :=
  ⟨rfl, rfl, by decide⟩

/-- Fresh success callback used by the C3 witness. -/
def c3FreshPayload : CallbackPayload :=
  { order_id := some "ORD1", tran_id := some "TX3", amount := .num 10 }

/-- Witness for C3 as amended: a fresh success callback flips the stored
order to "paid" and refreshes its `updated_at`. -/
theorem c3_order_sync_witness :
    ({ id := "ORD1", service_id := 1, unit_price := 1, quantity := 1,
       amount := 1, customer_name := "G", customer_details := none,
       status := "paid", created_at := 0, updated_at := 3 } : OrderRow) ∈
      (register_transaction c3FreshPayload 3 ingestDemoDB).1.orders :=
  (c3_order_sync c3FreshPayload 3 ingestDemoDB (by decide)).2.2.1
    { id := "ORD1", service_id := 1, unit_price := 1, quantity := 1,
      amount := 1, customer_name := "G", customer_details := none,
      status := "pending", created_at := 0, updated_at := 0 }
    (by decide) (by decide) (by decide)

/-- C10: when no order identifier resolves from the payload under any of
the recognized spellings, ingestion never touches the Payment or Order
tables — whatever the amount, status and transaction identifier carry —
and writes exactly the orphaned Transaction row when the tran_id is
fresh (propagating the uniqueness violation, with nothing written,
otherwise). -/
theorem c10_no_order_id_frame (p : CallbackPayload) (now : Nat) (st : DB)
    (h : isTruthyStr (resolvedOrderId p) = false) :
    (register_transaction p now st).1.payments = st.payments
    ∧ (register_transaction p now st).1.orders = st.orders
    ∧ (tranUniqueViolated st.transactions (resolvedTranId p) = false →
        (register_transaction p now st).2 = .ok (mkTranRow p now st.nextTranId)
        ∧ (register_transaction p now st).1.transactions =
            st.transactions ++ [mkTranRow p now st.nextTranId])
    ∧ (tranUniqueViolated st.transactions (resolvedTranId p) = true →
        register_transaction p now st = (st, .error .integrityError)) := by
  by_cases hv : tranUniqueViolated st.transactions (resolvedTranId p) = true
  · have hred : register_transaction p now st =
        (st, .error .integrityError) := by
      simp [register_transaction, hv]
    rw [hred]
    exact ⟨rfl, rfl, fun hf => absurd hv (by simp [hf]), fun _ => rfl⟩
  · have hv2 : tranUniqueViolated st.transactions (resolvedTranId p) =
        false := by simpa using hv
    have hcond : (isTruthyStr (resolvedOrderId p) &&
        (parsedAmount p.amount != 0) &&
        (normalizedStatus p == "success" || normalizedStatus p == "paid")) =
        false := by
      simp [h]
    have hred : register_transaction p now st =
        ({ st with
            transactions := st.transactions ++ [mkTranRow p now st.nextTranId],
            orders := applyOrderSync st.orders (resolvedOrderId p)
                        (normalizedStatus p) now,
            nextTranId := st.nextTranId + 1 },
          .ok (mkTranRow p now st.nextTranId)) := by
      simp [register_transaction, hv2, hcond]
    rw [hred]
    have hord : applyOrderSync st.orders (resolvedOrderId p)
        (normalizedStatus p) now = st.orders := by
      unfold applyOrderSync
      rw [if_neg (by simp [h])]
    exact ⟨rfl, hord, fun _ => ⟨rfl, rfl⟩, fun hviol => absurd hviol (by
      simp [hv2])⟩

/-- Orphan callback used by the C10 witness: success status, non-zero
amount and an external transaction id, but no resolvable order id. -/
def orphanPayload : CallbackPayload :=
  { transactionId := some "TZ1", status := some "success",
    amount := .num 5 }

/-- Witness for C10: the orphan success callback leaves the payments
table untouched. -/
theorem c10_no_order_id_frame_witness :
    (register_transaction orphanPayload 9 ingestDemoDB).1.payments =
      ingestDemoDB.payments :=
  (c10_no_order_id_frame orphanPayload 9 ingestDemoDB (by decide)).1

/-- `record_payment` with a truthy reference matching no stored payment
inserts exactly one new row carrying the given fields. -/
theorem record_payment_insert (order_id : String) (amount : ℚ)
    (currency status : String) (method : Option String) (s : String)
    (uid : Option Nat) (now : Nat) (st : DB) (hsne : s ≠ "")
    (hnone : st.payments.find? (fun q => q.gateway_reference == some s) =
      none) :
    record_payment order_id amount currency status method (some s) uid now
        st =
      .ok ({ st with
              payments := st.payments ++
                [⟨st.nextPaymentId, order_id, uid, amount, currency, method,
                  status, some s, now, now⟩],
              nextPaymentId := st.nextPaymentId + 1 },
            ⟨st.nextPaymentId, order_id, uid, amount, currency, method,
              status, some s, now, now⟩) := by
  have htruthy : isTruthyStr (some s) = true := by simp [isTruthyStr, hsne]
  have hany : st.payments.any (fun q => q.gateway_reference == some s) =
      false := by
    by_contra hx
    have hx2 : st.payments.any (fun q => q.gateway_reference == some s) =
        true := by
      revert hx
      cases st.payments.any (fun q => q.gateway_reference == some s) <;> simp
    rcases List.any_eq_true.mp hx2 with ⟨q, hq, hqe⟩
    exact List.find?_eq_none.mp hnone q hq hqe
  simp only [record_payment, htruthy, if_true, hnone, hany,
    Bool.false_eq_true, if_false]

/-- C1 as amended: for two ingested callbacks resolving the same non-null
gateway reference (their shared resolved transaction identifier), the
first commit inserts exactly one Payment row whose amount, currency,
status, method and processed_at reflect the FIRST callback; the second
ingestion then fails on the tran_id uniqueness constraint before ever
reaching the Payment upsert, leaving the whole store — that single
Payment row included — unchanged.  No second Payment row is ever
inserted, but last-applied-wins does not hold across redelivery. -/
theorem c1_gateway_reference_upsert (p1 p2 : CallbackPayload) (st : DB)
    (t1 t2 : Nat) (s : String)
    (h1 : resolvedTranId p1 = some s) (hsne : s ≠ "")
    (h2 : resolvedTranId p2 = some s)
    (hfresh : tranUniqueViolated st.transactions (some s) = false)
    (hnopay : st.payments.filter (fun q => q.gateway_reference == some s) =
      [])
    (hcond : (isTruthyStr (resolvedOrderId p1) &&
        (parsedAmount p1.amount != 0) &&
        (normalizedStatus p1 == "success" || normalizedStatus p1 == "paid")) =
        true) :
    (register_transaction p1 t1 st).2 = .ok (mkTranRow p1 t1 st.nextTranId)
    ∧ ((register_transaction p1 t1 st).1.payments.filter
        (fun q => q.gateway_reference == some s)) =
      [⟨st.nextPaymentId, (resolvedOrderId p1).getD "", none,
        parsedAmount p1.amount, resolvedCurrency p1, some "ABA PayWay",
        if normalizedStatus p1 == "success" then "captured"
        else normalizedStatus p1, some s, t1, t1⟩]
    ∧ register_transaction p2 t2 (register_transaction p1 t1 st).1 =
        ((register_transaction p1 t1 st).1, .error .integrityError) := by
  have hfresh1 : tranUniqueViolated st.transactions (resolvedTranId p1) =
      false := by rw [h1]; exact hfresh
  have hfind : st.payments.find? (fun q => q.gateway_reference == some s) =
      none := by
    rw [List.find?_eq_none]
    intro q hq hbq
    have hmem : q ∈ st.payments.filter
        (fun q => q.gateway_reference == some s) :=
      List.mem_filter.mpr ⟨hq, hbq⟩
    rw [hnopay] at hmem
    exact absurd hmem (List.not_mem_nil q)
  obtain ⟨hok, htx, -⟩ := register_transaction_fresh p1 t1 st hfresh1
  have hpay : (register_transaction p1 t1 st).1.payments =
      st.payments ++
        [⟨st.nextPaymentId, (resolvedOrderId p1).getD "", none,
          parsedAmount p1.amount, resolvedCurrency p1, some "ABA PayWay",
          if normalizedStatus p1 == "success" then "captured"
          else normalizedStatus p1, some s, t1, t1⟩] := by
    simp only [register_transaction, h1, hfresh, Bool.false_eq_true, if_false]
    rw [if_pos hcond]
    rw [record_payment_insert ((resolvedOrderId p1).getD "")
      (parsedAmount p1.amount) (resolvedCurrency p1)
      (if normalizedStatus p1 == "success" then "captured"
       else normalizedStatus p1)
      (some "ABA PayWay") s none t1
      { st with
        orders := applyOrderSync st.orders (resolvedOrderId p1)
                    (normalizedStatus p1) t1,
        transactions := st.transactions ++ [mkTranRow p1 t1 st.nextTranId],
        nextTranId := st.nextTranId + 1 } hsne hfind]
  refine ⟨hok, ?_, ?_⟩
  · rw [hpay, List.filter_append, hnopay]
    simp
  · exact register_transaction_dup_error p2 t2
      (register_transaction p1 t1 st).1 s h2
      ⟨mkTranRow p1 t1 st.nextTranId,
        by rw [htx]; exact List.mem_append_right _ (by simp),
        by show resolvedTranId p1 = some s; exact h1⟩

/-- First callback of the concrete C1 scenario (amount 10). -/
def c1FirstPayload : CallbackPayload :=
  { order_id := some "ORD1", tran_id := some "TX9", amount := .num 10 }

/-- Second callback of the concrete C1 scenario: same gateway reference,
amount 20. -/
def c1SecondPayload : CallbackPayload :=
  { order_id := some "ORD1", tran_id := some "TX9", amount := .num 20 }

/-- Counterexample to C1 as stated: after ingesting two callbacks with
the same gateway reference and amounts 10 then 20, the single stored
Payment row carries amount 10 (the FIRST callback), not the claimed
last-applied amount 20, and the second ingest errors. -/
theorem c1_counterexample :
    ((register_transaction c1SecondPayload 5
        (register_transaction c1FirstPayload 3 ingestDemoDB).1).1.payments.map
      (fun q => q.amount)) = [10]
    ∧ (10 : ℚ) ≠ 20
    ∧ (register_transaction c1SecondPayload 5
        (register_transaction c1FirstPayload 3 ingestDemoDB).1).2 =
      .error .integrityError :=
  ⟨rfl, by decide, rfl⟩

/-- Witness for C1 as amended at the concrete redelivery scenario. -/
theorem c1_gateway_reference_upsert_witness :
    register_transaction c1SecondPayload 5
        (register_transaction c1FirstPayload 3 ingestDemoDB).1 =
      ((register_transaction c1FirstPayload 3 ingestDemoDB).1,
        .error .integrityError) :=
  (c1_gateway_reference_upsert c1FirstPayload c1SecondPayload ingestDemoDB
    3 5 "TX9" (by decide) (by decide) (by decide) (by decide) (by decide)
    (by decide)).2.2
